import Mathlib

/-!
Verification of the order-execution and risk-control core of the trading
client: `src/core/types.py`, `src/core/utils.py`, `src/risk/risk_manager.py`,
`src/exec/position_tracker.py` and `src/exec/order_router.py` are shallowly
embedded below.  Python floats are modelled as rationals (`ℚ`): every `ℚ`
value is finite, so the `_is_bad_number` guards of the source reduce to the
accompanying sign checks on those code paths; a separate `PyVal` type keeps
the None/NaN/inf/non-numeric cases where a claim is about them.  Python
dicts used as keyed maps are modelled by their lookup functions, and the
wall clock is passed explicitly where the source reads it ambiently.
-/

namespace TradingCore

/-- Side of an order, from `src/core/types.py` (`OrderSide`). -/
inductive OrderSide where
  | BUY
  | SELL
deriving DecidableEq, Repr

/-- Order type, from `src/core/types.py` (`OrderType`). -/
inductive OrderType where
  | LIMIT
  | MARKET
deriving DecidableEq, Repr

/-- Open position record, from `src/core/types.py` (`Position`).
`entry_time` carries the ambient clock value observed at open time. -/
structure Position where
  symbol : String
  side : OrderSide
  size : ℚ
  entry_price : ℚ
  entry_time : ℚ
  stop_loss : Option ℚ
  take_profit : Option ℚ
  current_price : ℚ
deriving DecidableEq, Repr

/-- Completed trade record, from `src/core/types.py` (`Trade`). -/
structure Trade where
  timestamp : ℚ
  symbol : String
  side : OrderSide
  size : ℚ
  entry_price : ℚ
  exit_price : ℚ
  pnl : ℚ
  pnl_pct : ℚ
  fees : ℚ
  slippage : ℚ
  duration_seconds : ℚ
deriving DecidableEq, Repr

/-- Risk configuration, from `src/core/types.py` (`RiskLimits`). -/
structure RiskLimits where
  per_trade_risk_pct : ℚ
  max_daily_loss_pct : ℚ
  max_consecutive_losses : ℤ
  max_drawdown_pct : ℚ
  max_position_size_pct : ℚ
deriving DecidableEq, Repr

/-- The dataclass defaults of `RiskLimits` in `src/core/types.py`. -/
def defaultRiskLimits : RiskLimits :=
  { per_trade_risk_pct := 2
    max_daily_loss_pct := 5
    max_consecutive_losses := 5
    max_drawdown_pct := 15
    max_position_size_pct := 50 }

/-- Account snapshot, from `src/core/types.py` (`AccountState`). -/
structure AccountState where
  timestamp : ℚ
  total_balance : ℚ
  available_balance : ℚ
  equity : ℚ
  daily_pnl : ℚ
  total_pnl : ℚ
  open_positions : ℤ
  consecutive_losses : ℤ
  max_equity : ℚ
deriving DecidableEq, Repr

/-- Drawdown property `AccountState.current_drawdown_pct` of
`src/core/types.py`: computed from `total_balance` against the `max_equity`
peak, `0` when the peak is zero. -/
def AccountState.current_drawdown_pct (a : AccountState) : ℚ :=
  if a.max_equity = 0 then 0
  else ((a.max_equity - a.total_balance) / a.max_equity) * 100

/-- Unrealized PnL property of `Position` in `src/core/types.py`
(`current_price` is always set by the tracker, so the `None` branch of the
source is not reachable in tracked positions). -/
def Position.unrealized_pnl (p : Position) : ℚ :=
  if p.side = OrderSide.BUY then (p.current_price - p.entry_price) * p.size
  else (p.entry_price - p.current_price) * p.size

/-- A Python value as seen by `_is_bad_number` in `src/risk/risk_manager.py`:
`None`, a non-finite float, something `float()` rejects, or a finite number. -/
inductive PyVal where
  | none
  | nan
  | inf
  | ninf
  | nonnum
  | num (q : ℚ)
deriving DecidableEq, Repr

/-- Guard `_is_bad_number` of `src/risk/risk_manager.py`: true on
None / NaN / inf / not numeric, false exactly on finite numbers. -/
def _is_bad_number : PyVal → Bool
  | .num _ => false
  | _ => true

/-- Fee helper `calculate_fees` of `src/core/utils.py`; the source defaults
`fee_rate` to `0.0005`, callers below pass it explicitly. -/
def calculate_fees (amount price fee_rate : ℚ) : ℚ :=
  amount * price * fee_rate

/-- Slippage helper `calculate_slippage` of `src/core/utils.py` (the string
`side` argument of the source is modelled by `OrderSide`). -/
def calculate_slippage (expected_price actual_price : ℚ) (side : OrderSide) : ℚ :=
  if side = OrderSide.BUY then
    ((actual_price - expected_price) / expected_price) * 100
  else
    ((expected_price - actual_price) / expected_price) * 100

/-- Sizing helper `calculate_position_size` of `src/core/utils.py`. -/
def calculate_position_size (account_balance risk_per_trade_pct entry_price stop_loss_price : ℚ) : ℚ :=
  let risk_amount := account_balance * (risk_per_trade_pct / 100)
  let price_diff := |entry_price - stop_loss_price|
  if price_diff = 0 then 0
  else risk_amount / price_diff

/-- Python banker's rounding (`round` builtin): round half to even. -/
def round_half_even (x : ℚ) : ℤ :=
  let n := ⌊x⌋
  let r := x - n
  if r < 1/2 then n
  else if 1/2 < r then n + 1
  else if n % 2 = 0 then n else n + 1

/-- Rounding helper `round_to_precision` of `src/core/utils.py`:
`round(float(value), p)` for an integer precision `p`. -/
def round_to_precision (value : ℚ) (p : ℤ) : ℚ :=
  (round_half_even (value * (10 : ℚ) ^ p)) / (10 : ℚ) ^ p

/-- Risk manager state, from `src/risk/risk_manager.py` (`RiskManager`):
the sanitized limits plus the halt flag and its reason. -/
structure RiskManager where
  limits : RiskLimits
  trading_halted : Bool
  halt_reason : String
deriving DecidableEq, Repr

namespace RiskManager

/-- Limit clamping `RiskManager._sanitize_limits` of `src/risk/risk_manager.py`. -/
def sanitize_limits (l : RiskLimits) : RiskLimits :=
  { per_trade_risk_pct := if l.per_trade_risk_pct < 0 then 0 else l.per_trade_risk_pct
    max_position_size_pct := if l.max_position_size_pct ≤ 0 then 100 else l.max_position_size_pct
    max_daily_loss_pct := if l.max_daily_loss_pct < 0 then 0 else l.max_daily_loss_pct
    max_drawdown_pct := if l.max_drawdown_pct < 0 then 0 else l.max_drawdown_pct
    max_consecutive_losses := if l.max_consecutive_losses < 0 then 0 else l.max_consecutive_losses }

/-- Constructor `RiskManager.__init__`: trading starts allowed and the
limits are sanitized in place. -/
def init (limits : RiskLimits) : RiskManager :=
  { limits := sanitize_limits limits
    trading_halted := false
    halt_reason := "" }

/-- Halt switch `RiskManager.halt_trading`: sets the flag and stores the
first reason; a later breach never overwrites the stored reason. -/
def halt_trading (rm : RiskManager) (reason : String) : RiskManager :=
  if rm.trading_halted then rm
  else { rm with trading_halted := true, halt_reason := reason }

/-- Manual resume `RiskManager.resume_trading`. -/
def resume_trading (rm : RiskManager) : RiskManager :=
  { rm with trading_halted := false, halt_reason := "" }

/-- Query `RiskManager.is_trading_allowed` (does not re-evaluate limits). -/
def is_trading_allowed (rm : RiskManager) : Bool × String :=
  if rm.trading_halted then (false, rm.halt_reason) else (true, "")

/-- Daily-loss check `RiskManager.check_daily_loss_limit`.  The chained
comparison of the source, `daily_loss_pct >= max_daily_loss_pct > 0`,
requires the configured limit to be strictly positive.  The formatted
reason string of the source is abbreviated. -/
def check_daily_loss_limit (rm : RiskManager) (account : AccountState) : RiskManager × Bool :=
  if account.total_balance ≤ 0 then (rm, false)
  else if 0 ≤ account.daily_pnl then (rm, false)
  else
    let daily_loss_pct := |account.daily_pnl / account.total_balance| * 100
    if daily_loss_pct ≥ rm.limits.max_daily_loss_pct ∧ 0 < rm.limits.max_daily_loss_pct then
      (rm.halt_trading "Daily loss limit exceeded", true)
    else (rm, false)

/-- Drawdown check `RiskManager.check_max_drawdown`; `current_drawdown_pct`
is a total property of `AccountState`, so the missing-attribute branch of
the source is vacuous here. -/
def check_max_drawdown (rm : RiskManager) (account : AccountState) : RiskManager × Bool :=
  let current_dd := account.current_drawdown_pct
  if current_dd ≥ rm.limits.max_drawdown_pct ∧ 0 < rm.limits.max_drawdown_pct then
    (rm.halt_trading "Max drawdown exceeded", true)
  else (rm, false)

/-- Consecutive-loss check `RiskManager.check_consecutive_losses`
(`consecutive_losses` is already an integer field). -/
def check_consecutive_losses (rm : RiskManager) (account : AccountState) : RiskManager × Bool :=
  if 0 < rm.limits.max_consecutive_losses ∧
      account.consecutive_losses ≥ rm.limits.max_consecutive_losses then
    (rm.halt_trading "Consecutive losses limit exceeded", true)
  else (rm, false)

/-- Combined check `RiskManager.check_all_limits`: the Python `or` chain
evaluates the later checks only when the earlier ones report no breach. -/
def check_all_limits (rm : RiskManager) (account : AccountState) : RiskManager × Bool :=
  let step1 := rm.check_daily_loss_limit account
  if step1.2 then (step1.1, true)
  else
    let step2 := step1.1.check_max_drawdown account
    if step2.2 then (step2.1, true)
    else step2.1.check_consecutive_losses account

/-- Stop check `RiskManager.check_stop_loss`: total, fails safe on any bad
input (the inner match is unreachable when the guard passes). -/
def check_stop_loss (current_price stop_loss_price : PyVal) (side : OrderSide) : Bool :=
  if _is_bad_number stop_loss_price || _is_bad_number current_price then false
  else
    match current_price, stop_loss_price with
    | .num c, .num s => if side = OrderSide.BUY then decide (c ≤ s) else decide (s ≤ c)
    | _, _ => false

/-- Target check `RiskManager.check_take_profit`: total, fails safe on any
bad input. -/
def check_take_profit (current_price take_profit_price : PyVal) (side : OrderSide) : Bool :=
  if _is_bad_number take_profit_price || _is_bad_number current_price then false
  else
    match current_price, take_profit_price with
    | .num c, .num t => if side = OrderSide.BUY then decide (t ≤ c) else decide (c ≤ t)
    | _, _ => false

/-- Volatility throttle `RiskManager.adjust_position_size_for_volatility`
(`_is_bad_number` is false on rationals, leaving the sign guards). -/
def adjust_position_size_for_volatility (base_size current_atr avg_atr max_reduction : ℚ) : ℚ :=
  if base_size ≤ 0 ∨ avg_atr ≤ 0 then max base_size 0
  else
    let volatility_ratio := current_atr / avg_atr
    if volatility_ratio ≤ 2 then base_size
    else
      let raw_factor := 1 / volatility_ratio
      let adjusted_factor := max max_reduction raw_factor
      let adjusted_size := base_size * adjusted_factor
      max adjusted_size 0

/-- ATR sizing `RiskManager.calculate_position_size_atr`.  `avg_atr` is the
optional argument of the source; the call into the volatility throttle
passes the source's default `max_reduction = 0.5`. -/
def calculate_position_size_atr (rm : RiskManager) (account_balance entry_price atr_value : ℚ)
    (side : OrderSide) (atr_multiplier : ℚ) (avg_atr : Option ℚ) : ℚ :=
  if account_balance ≤ 0 ∨ entry_price ≤ 0 ∨ atr_value ≤ 0 then 0
  else
    let stop_distance := atr_value * atr_multiplier
    let stop_loss_price :=
      if side = OrderSide.BUY then entry_price - stop_distance
      else entry_price + stop_distance
    if stop_loss_price ≤ 0 then 0
    else
      let base_size :=
        calculate_position_size account_balance rm.limits.per_trade_risk_pct
          entry_price stop_loss_price
      if base_size ≤ 0 then 0
      else
        let max_notional0 := account_balance * (rm.limits.max_position_size_pct / 100)
        let max_notional := if max_notional0 ≤ 0 then account_balance else max_notional0
        let max_size := max_notional / entry_price
        let size_capped := min base_size max_size
        let final_size :=
          match avg_atr with
          | some a =>
              if 0 < a then adjust_position_size_for_volatility size_capped atr_value a (1/2)
              else size_capped
          | none => size_capped
        if final_size < 0 then 0 else final_size

end RiskManager

/-- Tracker state, from `src/exec/position_tracker.py` (`PositionTracker`):
the open-position dict is modelled by its lookup function, the trade ledger
by the list in append order. -/
structure PositionTracker where
  open_positions : String → Option Position
  closed_trades : List Trade

namespace PositionTracker

/-- Constructor `PositionTracker.__init__`: empty map, empty ledger. -/
def init : PositionTracker :=
  { open_positions := fun _ => none
    closed_trades := [] }

/-- Opening `PositionTracker.open_position` of `src/exec/position_tracker.py`.
`none` models the `ValueError` raised on non-positive size or invalid entry
price; `now` is the clock value read by `now_utc()`.  An existing position
for the symbol is overwritten (the source only logs a warning). -/
def open_position (pt : PositionTracker) (symbol : String) (side : OrderSide)
    (size entry_price : ℚ) (stop_loss take_profit : Option ℚ) (now : ℚ) :
    Option (PositionTracker × Position) :=
  if size ≤ 0 then none
  else if entry_price ≤ 0 then none
  else
    let position : Position :=
      { symbol := symbol
        side := side
        size := size
        entry_price := entry_price
        entry_time := now
        stop_loss := stop_loss
        take_profit := take_profit
        current_price := entry_price }
    some
      ({ pt with
          open_positions := fun k => if k = symbol then some position else pt.open_positions k },
        position)

/-- Closing `PositionTracker.close_position` of `src/exec/position_tracker.py`,
with partial liquidation: a positive `filled_amount` below the open size
reduces the position, computes the trade over the closed amount only, and
removes residuals below `1e-6`; otherwise the position is removed whole.
Default fees are taker fees on the exit leg (`calculate_fees`, rate `0.0005`). -/
def close_position (pt : PositionTracker) (symbol : String) (exit_price : ℚ)
    (fees slippage_pct filled_amount : Option ℚ) (now : ℚ) :
    PositionTracker × Option Trade :=
  match pt.open_positions symbol with
  | none => (pt, none)
  | some position =>
    if exit_price ≤ 0 then (pt, none)
    else
      let close_size :=
        match filled_amount with
        | some fa => if 0 < fa then min fa position.size else position.size
        | none => position.size
      let is_partial : Bool :=
        match filled_amount with
        | some fa => decide (0 < fa) && decide (min fa position.size < position.size)
        | none => false
      let gross_pnl :=
        if position.side = OrderSide.BUY then (exit_price - position.entry_price) * close_size
        else (position.entry_price - exit_price) * close_size
      let pnl_pct :=
        if position.side = OrderSide.BUY then ((exit_price / position.entry_price) - 1) * 100
        else (1 - (exit_price / position.entry_price)) * 100
      let trade_fees :=
        match fees with
        | none => calculate_fees close_size exit_price (5/10000)
        | some f => f
      let net_pnl := gross_pnl - trade_fees
      let trade : Trade :=
        { timestamp := now
          symbol := symbol
          side := position.side
          size := close_size
          entry_price := position.entry_price
          exit_price := exit_price
          pnl := net_pnl
          pnl_pct := pnl_pct
          fees := trade_fees
          slippage := slippage_pct.getD 0
          duration_seconds := now - position.entry_time }
      let open' : String → Option Position :=
        if is_partial then
          let remaining := position.size - close_size
          if remaining < 1/1000000 then
            fun k => if k = symbol then none else pt.open_positions k
          else
            fun k =>
              if k = symbol then some { position with size := remaining }
              else pt.open_positions k
        else fun k => if k = symbol then none else pt.open_positions k
      ({ open_positions := open', closed_trades := pt.closed_trades ++ [trade] }, some trade)

/-- Mark update `PositionTracker.update_position_price`: no-op on a missing
position or a non-positive price. -/
def update_position_price (pt : PositionTracker) (symbol : String) (current_price : ℚ) :
    PositionTracker :=
  match pt.open_positions symbol with
  | none => pt
  | some position =>
    if current_price ≤ 0 then pt
    else
      { pt with
          open_positions := fun k =>
            if k = symbol then some { position with current_price := current_price }
            else pt.open_positions k }

/-- Trailing-loss loop of `PositionTracker.count_consecutive_losses`: the
source walks `reversed(self.closed_trades)` counting `pnl <= 0` and stops
at the first winner. -/
def count_losses_from_latest : List Trade → ℕ
  | [] => 0
  | t :: rest => if t.pnl ≤ 0 then count_losses_from_latest rest + 1 else 0

/-- Counter `PositionTracker.count_consecutive_losses` of
`src/exec/position_tracker.py`. -/
def count_consecutive_losses (pt : PositionTracker) : ℕ :=
  count_losses_from_latest pt.closed_trades.reverse

/-- Realized-PnL sum `PositionTracker.get_total_realized_pnl`. -/
def get_total_realized_pnl (pt : PositionTracker) : ℚ :=
  (pt.closed_trades.map Trade.pnl).sum

end PositionTracker

/-- Signal consumed by the router, from `src/core/types.py` (`Signal`);
`timestamp`, `regime`, `indicators` and `executed` are not read by
`OrderRouter` and are omitted. -/
structure Signal where
  symbol : String
  side : OrderSide
  reason : String
deriving DecidableEq, Repr

/-- Ticker response shape consumed by
`OrderRouter._extract_price_from_ticker`: the four candidate price keys,
each possibly absent. -/
structure Ticker where
  last : Option ℚ
  close : Option ℚ
  bid : Option ℚ
  ask : Option ℚ
deriving DecidableEq, Repr

/-- CCXT-shaped balance consumed by the router's balance helpers, keyed by
asset code: `free asset` and `total asset` model `balance[asset]['free']`
and `balance[asset]['total']`. -/
structure Balance where
  free : String → ℚ
  total : String → ℚ

/-- Exchange order-status response shape consumed by the router's polling
loops: `status`, `filled`, and the candidate fill-price keys `average` and
`price` (`avgPrice` / `fill_price` are alternate spellings of the same
slots).  `slippage` and `fees` are the keys the router itself attaches
afterwards, absent (zero) on raw exchange responses. -/
structure FetchResp where
  status : String
  filled : ℚ
  average : Option ℚ
  price : Option ℚ
  slippage : ℚ
  fees : ℚ
deriving DecidableEq, Repr

/-- Arguments of an `exchange.create_order` call issued by the router. -/
structure OrderReq where
  symbol : String
  order_type : OrderType
  side : OrderSide
  amount : ℚ
  price : Option ℚ
deriving DecidableEq, Repr

/-- The exchange capability as the router sees it, with each awaited call
modelled by its (deterministic) response: `create_order` yields the order
id (`none` models a response without an id), and `fetch_order oid k` is the
k-th status read for order `oid`. -/
structure Exchange where
  balance : Balance
  ticker : String → Ticker
  create_order : OrderReq → Option String
  fetch_order : String → ℕ → FetchResp

/-- Router configuration and state, from `src/exec/order_router.py`
(`OrderRouter.__init__`): `default_order_type` is kept post-normalization
(the constructor maps the strings "limit"/"market" to the enum), and the
precisions are the normalized integers (defaults 6 and 0). -/
structure OrderRouter where
  default_order_type : OrderType
  limit_order_timeout_seconds : ℚ
  max_slippage_pct : ℚ
  prefer_maker : Bool
  maker_retry_seconds : ℚ
  maker_max_retries : ℕ
  amount_precision : ℤ
  price_precision : ℤ
deriving DecidableEq, Repr

/-- Router with the constructor defaults of `OrderRouter.__init__`. -/
def defaultOrderRouter : OrderRouter :=
  { default_order_type := OrderType.LIMIT
    limit_order_timeout_seconds := 30
    max_slippage_pct := 1/2
    prefer_maker := false
    maker_retry_seconds := 3
    maker_max_retries := 1
    amount_precision := 6
    price_precision := 0 }

namespace OrderRouter

/-- First positive candidate, the per-key step of the price extractors. -/
def positive_candidate (p : Option ℚ) : Option ℚ :=
  match p with
  | some v => if 0 < v then some v else none
  | none => none

/-- Reference-price extraction `OrderRouter._extract_price_from_ticker`:
first positive value among `last`, `close`, `bid`, `ask`; non-positive or
missing candidates are skipped. -/
def _extract_price_from_ticker (t : Ticker) : Option ℚ :=
  match positive_candidate t.last with
  | some v => some v
  | none =>
    match positive_candidate t.close with
    | some v => some v
    | none =>
      match positive_candidate t.bid with
      | some v => some v
      | none => positive_candidate t.ask

/-- Fill-price extraction `OrderRouter._extract_fill_price`: first positive
value among the `average` and `price` slots of an order response. -/
def _extract_fill_price (o : FetchResp) : Option ℚ :=
  match positive_candidate o.average with
  | some v => some v
  | none => positive_candidate o.price

/-- Balance helper `OrderRouter._extract_krw_free_balance` on the
CCXT-shaped balance: the free KRW amount. -/
def _extract_krw_free_balance (b : Balance) : ℚ :=
  b.free "KRW"

/-- Base-currency part of a symbol, `symbol.split('/')[0]`: the characters
before the first `/` (the whole symbol when it has none). -/
def base_currency (symbol : String) : String :=
  String.mk (symbol.toList.takeWhile fun c => c ≠ '/')

/-- Balance helper `OrderRouter._extract_base_balance`: total holdings of
the base asset, falling back to the free amount when total is zero. -/
def _extract_base_balance (b : Balance) (base : String) : ℚ :=
  if 0 < b.total base then b.total base
  else if 0 < b.free base then b.free base
  else 0

/-- Order-construction prefix of `OrderRouter._execute_market_order`, up to
the `create_order` call: given the freshly fetched balance and the
extracted current price, the request actually placed (`none` when the
source aborts before placing).  A positive `size` becomes `amount_override`
and is used as the order amount; otherwise the amount is derived from the
balance (for BUY, 95% of free KRW at the current price; for SELL, the base
holdings), and the KRW order cost is rounded to whole won and checked. -/
def market_order_plan (r : OrderRouter) (balance : Balance) (current_price : ℚ)
    (symbol : String) (side : OrderSide) (size : ℚ) : Option OrderReq :=
  let amount_override : Option ℚ := if 0 < size then some size else none
  match side with
  | OrderSide.BUY =>
    let krw_balance := _extract_krw_free_balance balance
    match amount_override with
    | none =>
      if krw_balance ≤ 0 then none
      else
        let order_cost := krw_balance * (95/100)
        let order_amount := round_to_precision (order_cost / current_price) r.amount_precision
        if round_to_precision order_cost 0 ≤ 0 then none
        else some
          { symbol := symbol, order_type := OrderType.MARKET, side := side
            amount := order_amount, price := some current_price }
    | some ov =>
      let order_amount := round_to_precision ov r.amount_precision
      let order_cost := order_amount * current_price
      if round_to_precision order_cost 0 ≤ 0 then none
      else some
        { symbol := symbol, order_type := OrderType.MARKET, side := side
          amount := order_amount, price := some current_price }
  | OrderSide.SELL =>
    let sell_with : ℚ → Option OrderReq := fun s =>
      let s' := round_to_precision s r.amount_precision
      if s' ≤ 0 then none
      else some
        { symbol := symbol, order_type := OrderType.MARKET, side := side
          amount := s', price := some current_price }
    match amount_override with
    | none =>
      let base_balance := _extract_base_balance balance (base_currency symbol)
      if base_balance ≤ 0 then none
      else sell_with base_balance
    | some ov => sell_with ov

/-- Market-order fill polling of `OrderRouter._execute_market_order`:
bounded loop (`max_polls = 10`), each round sleeps then fetches; a
closed/canceled status resolves by its fill; after the last poll the final
status is kept if anything filled, otherwise the order is canceled (when
still open) and the flow reports no fill.  `i` is the poll index, `fuel`
the remaining polls. -/
def market_poll (fetch : ℕ → FetchResp) : ℕ → ℕ → Option FetchResp
  | _, 0 => none
  | i, fuel + 1 =>
    let st := fetch i
    if st.status = "closed" ∨ st.status = "canceled" then
      if 0 < st.filled then some st else none
    else
      match fuel with
      | 0 => if 0 < st.filled then some st else none
      | _ + 1 => market_poll fetch (i + 1) fuel

/-- Market flow `OrderRouter._execute_market_order`: fetch balance and
ticker fresh, build the request via `market_order_plan`, place it, then
poll.  `none` models every abort/no-fill path of the source. -/
def _execute_market_order (r : OrderRouter) (ex : Exchange) (symbol : String)
    (side : OrderSide) (size : ℚ) : Option FetchResp :=
  match _extract_price_from_ticker (ex.ticker symbol) with
  | none => none
  | some current_price =>
    match market_order_plan r ex.balance current_price symbol side size with
    | none => none
    | some req =>
      match ex.create_order req with
      | none => none
      | some order_id => market_poll (ex.fetch_order order_id) 0 10

/-- Close flow `OrderRouter.close_position` of `src/exec/order_router.py`:
flips the side and delegates to the market flow with the given size
(`reason` is only logged). -/
def close_position (r : OrderRouter) (ex : Exchange) (symbol : String)
    (side : OrderSide) (size : ℚ) (reason : String) : Option FetchResp :=
  let close_side := if side = OrderSide.BUY then OrderSide.SELL else OrderSide.BUY
  _execute_market_order r ex symbol close_side size

/-- Order-construction prefix of `OrderRouter._execute_limit_order`: the
parameter guard, then the rounded limit request. -/
def limit_order_request (r : OrderRouter) (symbol : String) (side : OrderSide)
    (size limit_price : ℚ) : Option OrderReq :=
  if size ≤ 0 ∨ limit_price ≤ 0 then none
  else some
    { symbol := symbol, order_type := OrderType.LIMIT, side := side
      amount := round_to_precision size r.amount_precision
      price := some (round_to_precision limit_price r.price_precision) }

/-- Limit-order polling loop of `OrderRouter._execute_limit_order`: poll
once a second until the order closes; at the deadline cancel, re-read the
final status once, and keep it only if something filled.  `i` is the poll
index and `fuel` the number of reads remaining before the deadline (the
wall-clock timeout divided by the 1-second poll interval). -/
def limit_poll (fetch : ℕ → FetchResp) : ℕ → ℕ → Option FetchResp
  | i, 0 =>
    let st := fetch i
    if st.status = "closed" then some st
    else
      let final_status := fetch (i + 1)
      if 0 < final_status.filled then some final_status else none
  | i, fuel + 1 =>
    let st := fetch i
    if st.status = "closed" then some st
    else limit_poll fetch (i + 1) fuel

/-- Number of 1-second polls that happen strictly before a timeout of `t`
seconds elapses (the source compares `elapsed >= limit_timeout` after each
read). -/
def poll_budget (t : ℚ) : ℕ :=
  if t ≤ 0 then 0 else (⌈t⌉).toNat

/-- Limit flow `OrderRouter._execute_limit_order`: guard, place the rounded
limit order, then poll until filled or timeout; `none` models every
abort/zero-fill path.  A `timeout_override` of `0` falls back to the
configured timeout (Python's `timeout_override or self...` treats `0.0` as
absent). -/
def _execute_limit_order (r : OrderRouter) (ex : Exchange) (symbol : String)
    (side : OrderSide) (size limit_price : ℚ) (timeout_override : Option ℚ) :
    Option FetchResp :=
  match limit_order_request r symbol side size limit_price with
  | none => none
  | some req =>
    match ex.create_order req with
    | none => none
    | some order_id =>
      let limit_timeout :=
        match timeout_override with
        | some t => if t = 0 then r.limit_order_timeout_seconds else t
        | none => r.limit_order_timeout_seconds
      limit_poll (ex.fetch_order order_id) 0 (poll_budget limit_timeout)

/-- Retry loop of `OrderRouter.execute_signal` around the limit flow
(`while attempt <= retries`): `attempts` is `retries + 1`. -/
def limit_attempts (r : OrderRouter) (ex : Exchange) (symbol : String)
    (side : OrderSide) (size limit_price : ℚ) (timeout : ℚ) : ℕ → Option FetchResp
  | 0 => none
  | attempts + 1 =>
    match _execute_limit_order r ex symbol side size limit_price (some timeout) with
    | some res => some res
    | none => limit_attempts r ex symbol side size limit_price timeout attempts

/-- Post-fill metrics step at the end of `OrderRouter.execute_signal`: when
the result carries a positive fill price and size, attach the slippage
against the pre-trade reference price and the taker-fee estimate; the
result is otherwise returned unchanged. -/
def attach_exec_metrics (reference_price : ℚ) (side : OrderSide) (result : FetchResp) :
    FetchResp :=
  match _extract_fill_price result with
  | none => result
  | some avg_fill_price =>
    if result.filled ≤ 0 then result
    else
      { result with
          slippage := calculate_slippage reference_price avg_fill_price side
          fees := calculate_fees result.filled avg_fill_price (5/10000) }

/-- Signal execution `OrderRouter.execute_signal` of
`src/exec/order_router.py`.  An effective size that is absent or
non-positive goes straight to the full-balance market flow (`size = 0` is
the marker the source passes).  A positive size is rounded, a reference
price extracted (abort when none), a favorably offset limit price chosen
(0.1% below for BUY, above for SELL), and the limit flow attempted first in
both configuration branches, with the market flow used exactly when the
limit flow reports no fill; the final result gets the execution metrics
attached.  `stop_loss` / `take_profit` are logged only. -/
def execute_signal (r : OrderRouter) (ex : Exchange) (signal : Signal)
    (size : Option ℚ) (stop_loss take_profit amount : Option ℚ) : Option FetchResp :=
  let size0 :=
    match size with
    | none => amount
    | some s => some s
  match size0 with
  | none => _execute_market_order r ex signal.symbol signal.side 0
  | some s =>
    if s ≤ 0 then _execute_market_order r ex signal.symbol signal.side 0
    else
      let s' := round_to_precision s r.amount_precision
      match _extract_price_from_ticker (ex.ticker signal.symbol) with
      | none => none
      | some current_price =>
        let raw_limit_price :=
          if signal.side = OrderSide.BUY then current_price * (999/1000)
          else current_price * (1001/1000)
        let limit_price := round_to_precision raw_limit_price r.price_precision
        let use_limit := r.default_order_type = OrderType.LIMIT
        let prefer_limit_first := use_limit || r.prefer_maker
        let result :=
          if prefer_limit_first then
            let retries := if r.prefer_maker then r.maker_max_retries else 0
            let limit_timeout :=
              if use_limit then r.limit_order_timeout_seconds
              else min r.limit_order_timeout_seconds r.maker_retry_seconds
            match limit_attempts r ex signal.symbol signal.side s' limit_price
                limit_timeout (retries + 1) with
            | some res => some res
            | none => _execute_market_order r ex signal.symbol signal.side s'
          else
            match _execute_limit_order r ex signal.symbol signal.side s' limit_price
                (some (min r.limit_order_timeout_seconds 2)) with
            | some res => some res
            | none => _execute_market_order r ex signal.symbol signal.side s'
        result.map (attach_exec_metrics current_price signal.side)

end OrderRouter

/-- One risk-manager operation, for stating which operations can clear the
halt flag. -/
inductive RMOp where
  | check_all (account : AccountState)
  | check_daily (account : AccountState)
  | check_dd (account : AccountState)
  | check_consec (account : AccountState)
  | halt (reason : String)
  | resume
deriving DecidableEq

/-- Effect of a risk-manager operation on the manager state (the sizing and
stop-check methods never assign to `self` and are pure functions above). -/
def RMOp.run : RMOp → RiskManager → RiskManager
  | .check_all account, rm => (rm.check_all_limits account).1
  | .check_daily account, rm => (rm.check_daily_loss_limit account).1
  | .check_dd account, rm => (rm.check_max_drawdown account).1
  | .check_consec account, rm => (rm.check_consecutive_losses account).1
  | .halt reason, rm => rm.halt_trading reason
  | .resume, rm => rm.resume_trading

/-- Breach predicate written from the code's actual halt conditions, for
comparison with the spec's three conditions: each branch additionally
requires its configured limit to be strictly positive, and the daily-loss
branch requires a positive total balance. -/
def breach_condition (l : RiskLimits) (a : AccountState) : Prop :=
  (0 < a.total_balance ∧ a.daily_pnl < 0 ∧
    |a.daily_pnl / a.total_balance| * 100 ≥ l.max_daily_loss_pct ∧ 0 < l.max_daily_loss_pct) ∨
  (a.current_drawdown_pct ≥ l.max_drawdown_pct ∧ 0 < l.max_drawdown_pct) ∨
  (0 < l.max_consecutive_losses ∧ a.consecutive_losses ≥ l.max_consecutive_losses)

instance (l : RiskLimits) (a : AccountState) : Decidable (breach_condition l a) := by
  unfold breach_condition; infer_instance

section Fixtures

/-- Fixture: limits whose daily-loss threshold is zero (a value the
sanitizer keeps). -/
def lim0 : RiskLimits := { defaultRiskLimits with max_daily_loss_pct := 0 }

/-- Fixture: an account that is down 10% on the day. -/
def acc0 : AccountState :=
  { timestamp := 0
    total_balance := 100
    available_balance := 100
    equity := 100
    daily_pnl := -10
    total_pnl := -10
    open_positions := 0
    consecutive_losses := 0
    max_equity := 0 }

/-- Fixture: a manager that is currently halted. -/
def rm_halted : RiskManager :=
  { limits := defaultRiskLimits, trading_halted := true, halt_reason := "x" }

/-- Fixture: exchange balance holding 1,000,000 free KRW and 5 XRP. -/
def bal0 : Balance :=
  { free := fun a => if a = "KRW" then 1000000 else 0
    total := fun a => if a = "XRP" then 5 else 0 }

/-- Fixture: a second balance, differing from `bal0`. -/
def bal1 : Balance :=
  { free := fun a => if a = "KRW" then 777 else 0
    total := fun a => if a = "XRP" then 9 else 0 }

/-- Fixture: a deterministic exchange over `bal0` whose order ids record
whether the placed amount was the actual XRP holdings (5) or not, and whose
fills echo the placed amount accordingly. -/
def ex0 : Exchange :=
  { balance := bal0
    ticker := fun _ => { last := some 100, close := none, bid := none, ask := none }
    create_order := fun req => if req.amount = 5 then some "H" else some "S"
    fetch_order := fun oid _ =>
      if oid = "S" then
        { status := "closed", filled := 2, average := some 100, price := none
          slippage := 0, fees := 0 }
      else
        { status := "closed", filled := 5, average := some 100, price := none
          slippage := 0, fees := 0 } }

/-- Fixture: a buy signal for XRP/KRW. -/
def sig0 : Signal := { symbol := "XRP/KRW", side := OrderSide.BUY, reason := "test" }

/-- Fixture: an open long position of 1 BTC at 100. -/
def pos_w : Position :=
  { symbol := "BTC/KRW"
    side := OrderSide.BUY
    size := 1
    entry_price := 100
    entry_time := 0
    stop_loss := none
    take_profit := none
    current_price := 100 }

/-- Fixture: tracker holding exactly `pos_w`. -/
def pt_w : PositionTracker :=
  { open_positions := fun k => if k = "BTC/KRW" then some pos_w else none
    closed_trades := [] }

/-- Fixture: a winning closed trade. -/
def trade_win : Trade :=
  { timestamp := 0, symbol := "BTC/KRW", side := OrderSide.BUY, size := 1
    entry_price := 100, exit_price := 110, pnl := 10, pnl_pct := 10
    fees := 0, slippage := 0, duration_seconds := 0 }

/-- Fixture: a losing closed trade. -/
def trade_loss : Trade :=
  { timestamp := 0, symbol := "BTC/KRW", side := OrderSide.BUY, size := 1
    entry_price := 100, exit_price := 90, pnl := -10, pnl_pct := -10
    fees := 0, slippage := 0, duration_seconds := 0 }

/-- Fixture: tracker whose ledger is one winning trade. -/
def pt_led : PositionTracker :=
  { open_positions := fun _ => none
    closed_trades := [trade_win] }

end Fixtures

/-- Helper: the trailing-loss counter is the length of the leading
`pnl ≤ 0` run. -/
theorem count_losses_eq_takeWhile (l : List Trade) :
    PositionTracker.count_losses_from_latest l =
      (l.takeWhile fun t => decide (t.pnl ≤ 0)).length := by
  induction l with
  | nil => rfl
  | cons t rest ih =>
    by_cases h : t.pnl ≤ 0
    · simp [PositionTracker.count_losses_from_latest, List.takeWhile_cons, h, ih]
    · simp [PositionTracker.count_losses_from_latest, List.takeWhile_cons, h]

/-- C7: `count_consecutive_losses` returns the length of the maximal suffix
of the ledger with `pnl ≤ 0`; it is 0 whenever the most recent trade is a
winner, and appending a `pnl ≤ 0` trade increments it by exactly 1. -/
theorem claim_C7_consecutive_losses (pt : PositionTracker) :
    pt.count_consecutive_losses =
      (pt.closed_trades.reverse.takeWhile fun t => decide (t.pnl ≤ 0)).length ∧
    (∀ t : Trade, pt.closed_trades.getLast? = some t → 0 < t.pnl →
      pt.count_consecutive_losses = 0) ∧
    (∀ t : Trade, t.pnl ≤ 0 →
      PositionTracker.count_consecutive_losses
        { pt with closed_trades := pt.closed_trades ++ [t] } =
        pt.count_consecutive_losses + 1) := by
  refine ⟨count_losses_eq_takeWhile _, ?_, ?_⟩
  · intro t hlast hpos
    unfold PositionTracker.count_consecutive_losses
    cases hrev : pt.closed_trades.reverse with
    | nil =>
      have : pt.closed_trades = [] := by
        simpa using congrArg List.reverse hrev
      simp [this] at hlast
    | cons a rest =>
      have ha : a = t := by
        have h1 : pt.closed_trades.reverse.head? = some a := by simp [hrev]
        rw [List.head?_reverse] at h1
        rw [hlast] at h1
        exact (Option.some_injective _ h1).symm
      subst ha
      simp [hrev, PositionTracker.count_losses_from_latest, not_le.mpr hpos]
  · intro t ht
    unfold PositionTracker.count_consecutive_losses
    simp [List.reverse_append, PositionTracker.count_losses_from_latest, ht]

/-- C7 witness: appending a losing trade to the one-winner ledger takes the
count from 0 to 1. -/
theorem claim_C7_consecutive_losses_witness :
    PositionTracker.count_consecutive_losses
      { pt_led with closed_trades := pt_led.closed_trades ++ [trade_loss] } =
      pt_led.count_consecutive_losses + 1 :=
  (claim_C7_consecutive_losses pt_led).2.2 trade_loss (by norm_num [trade_loss])

/-- C8: for positive inputs the volatility throttle is the identity at
ratio ≤ 2, scales by `max (1/2) (avg/current)` at ratio > 2, and always
returns a positive size never exceeding the base size. -/
theorem claim_C8_volatility_throttle (base_size current_atr avg_atr : ℚ)
    (hb : 0 < base_size) (hc : 0 < current_atr) (ha : 0 < avg_atr) :
    (current_atr / avg_atr ≤ 2 →
      RiskManager.adjust_position_size_for_volatility base_size current_atr avg_atr (1/2) =
        base_size) ∧
    (2 < current_atr / avg_atr →
      RiskManager.adjust_position_size_for_volatility base_size current_atr avg_atr (1/2) =
        base_size * max (1/2) (avg_atr / current_atr)) ∧
    0 < RiskManager.adjust_position_size_for_volatility base_size current_atr avg_atr (1/2) ∧
    RiskManager.adjust_position_size_for_volatility base_size current_atr avg_atr (1/2) ≤
      base_size := by
  have hguard : ¬(base_size ≤ 0 ∨ avg_atr ≤ 0) := by push_neg; exact ⟨hb, ha⟩
  have hinv : 1 / (current_atr / avg_atr) = avg_atr / current_atr := one_div_div _ _
  unfold RiskManager.adjust_position_size_for_volatility
  rw [if_neg hguard]
  by_cases hr : current_atr / avg_atr ≤ 2
  · rw [if_pos hr]
    exact ⟨fun _ => rfl, fun h => absurd h (not_lt.mpr hr), hb, le_refl _⟩
  · rw [if_neg hr]
    push_neg at hr
    have hratio1 : (1 : ℚ) ≤ current_atr / avg_atr := le_trans (by norm_num) hr.le
    have hratio0 : (0 : ℚ) < current_atr / avg_atr := lt_of_lt_of_le one_pos hratio1
    have hfac_pos : 0 < max (1/2 : ℚ) (1 / (current_atr / avg_atr)) :=
      lt_max_of_lt_left (by norm_num)
    have hfac_le : max (1/2 : ℚ) (1 / (current_atr / avg_atr)) ≤ 1 :=
      max_le (by norm_num) ((div_le_one hratio0).mpr hratio1)
    have hpos : 0 < base_size * max (1/2 : ℚ) (1 / (current_atr / avg_atr)) :=
      mul_pos hb hfac_pos
    have hle : base_size * max (1/2 : ℚ) (1 / (current_atr / avg_atr)) ≤ base_size := by
      calc base_size * max (1/2 : ℚ) (1 / (current_atr / avg_atr))
          ≤ base_size * 1 := by
            exact mul_le_mul_of_nonneg_left hfac_le hb.le
        _ = base_size := mul_one _
    have hmax : max (base_size * max (1/2 : ℚ) (1 / (current_atr / avg_atr))) 0 =
        base_size * max (1/2 : ℚ) (1 / (current_atr / avg_atr)) :=
      max_eq_left hpos.le
    refine ⟨fun h => absurd h (not_le.mpr hr), fun _ => ?_, ?_, ?_⟩
    · rw [hmax, hinv]
    · rw [hmax]; exact hpos
    · rw [hmax]; exact hle

/-- C8 witness: base 10 at ratio 3 is scaled to `10 * max (1/2) (1/3)`,
positive and below the base. -/
theorem claim_C8_volatility_throttle_witness :
    RiskManager.adjust_position_size_for_volatility 10 30 10 (1/2) =
      10 * max (1/2 : ℚ) ((10 : ℚ) / 30) ∧
    0 < RiskManager.adjust_position_size_for_volatility 10 30 10 (1/2) ∧
    RiskManager.adjust_position_size_for_volatility 10 30 10 (1/2) ≤ 10 := by
  have h := claim_C8_volatility_throttle 10 30 10 (by norm_num) (by norm_num) (by norm_num)
  exact ⟨h.2.1 (by norm_num), h.2.2.1, h.2.2.2⟩

/-- C9: the stop and target checks are total Boolean functions that return
`false` whenever either price argument is None/NaN/inf/non-numeric, and on
finite numbers compare side-aware: for BUY the stop is hit iff price ≤ stop
and the target iff price ≥ target, inverted for SELL. -/
theorem claim_C9_stop_target_checks (p q : PyVal) (side : OrderSide) :
    ((_is_bad_number p = true ∨ _is_bad_number q = true) →
      RiskManager.check_stop_loss p q side = false ∧
      RiskManager.check_take_profit p q side = false) ∧
    (∀ c s : ℚ,
      RiskManager.check_stop_loss (.num c) (.num s) side =
        (if side = OrderSide.BUY then decide (c ≤ s) else decide (s ≤ c)) ∧
      RiskManager.check_take_profit (.num c) (.num s) side =
        (if side = OrderSide.BUY then decide (s ≤ c) else decide (c ≤ s))) := by
  constructor
  · intro h
    cases p <;> cases q <;>
      simp_all [RiskManager.check_stop_loss, RiskManager.check_take_profit, _is_bad_number]
  · intro c s
    constructor <;>
      simp [RiskManager.check_stop_loss, RiskManager.check_take_profit, _is_bad_number]

/-- C9 witness: a NaN current price yields `false` from both checks. -/
theorem claim_C9_stop_target_checks_witness :
    RiskManager.check_stop_loss PyVal.nan (PyVal.num 1) OrderSide.BUY = false ∧
    RiskManager.check_take_profit PyVal.nan (PyVal.num 1) OrderSide.BUY = false :=
  (claim_C9_stop_target_checks PyVal.nan (PyVal.num 1) OrderSide.BUY).1 (Or.inl rfl)

/-- C10: the drawdown percentage equals
`(max_equity - total_balance) / max_equity * 100` when the peak is nonzero
and `0` otherwise, and depends only on `max_equity` and `total_balance`. -/
theorem claim_C10_drawdown_pct (a b : AccountState) :
    (a.current_drawdown_pct =
      if a.max_equity = 0 then 0
      else ((a.max_equity - a.total_balance) / a.max_equity) * 100) ∧
    (a.max_equity = b.max_equity → a.total_balance = b.total_balance →
      a.current_drawdown_pct = b.current_drawdown_pct) := by
  refine ⟨rfl, ?_⟩
  intro h1 h2
  unfold AccountState.current_drawdown_pct
  rw [h1, h2]

/-- C10 witness: two accounts agreeing on peak and balance but differing in
equity and daily PnL have the same drawdown percentage. -/
theorem claim_C10_drawdown_pct_witness :
    ({ acc0 with equity := 55, daily_pnl := 3 } : AccountState).current_drawdown_pct =
      acc0.current_drawdown_pct :=
  (claim_C10_drawdown_pct { acc0 with equity := 55, daily_pnl := 3 } acc0).2 rfl rfl

/-- Helper: the sanitizer guarantees a strictly positive max position size. -/
theorem sanitize_max_position_pos (l : RiskLimits) :
    0 < (RiskManager.sanitize_limits l).max_position_size_pct := by
  show 0 < (if l.max_position_size_pct ≤ 0 then (100 : ℚ) else l.max_position_size_pct)
  split_ifs with h
  · norm_num
  · exact lt_of_not_le h

/-- Helper: for a positive base size the volatility throttle never grows
the size. -/
theorem adjust_volatility_le_base (base_size current_atr avg_atr : ℚ) (hb : 0 < base_size) :
    RiskManager.adjust_position_size_for_volatility base_size current_atr avg_atr (1/2) ≤
      base_size := by
  unfold RiskManager.adjust_position_size_for_volatility
  by_cases hg : base_size ≤ 0 ∨ avg_atr ≤ 0
  · rw [if_pos hg]; exact max_le (le_refl _) hb.le
  · rw [if_neg hg]
    by_cases hr : current_atr / avg_atr ≤ 2
    · rw [if_pos hr]
    · rw [if_neg hr]
      push_neg at hr
      have hratio1 : (1 : ℚ) ≤ current_atr / avg_atr :=
        le_trans (by norm_num : (1 : ℚ) ≤ 2) hr.le
      have hratio0 : (0 : ℚ) < current_atr / avg_atr := lt_of_lt_of_le one_pos hratio1
      have hfac_le : max (1/2 : ℚ) (1 / (current_atr / avg_atr)) ≤ 1 :=
        max_le (by norm_num) ((div_le_one hratio0).mpr hratio1)
      refine max_le ?_ hb.le
      calc base_size * max (1/2 : ℚ) (1 / (current_atr / avg_atr))
          ≤ base_size * 1 := mul_le_mul_of_nonneg_left hfac_le hb.le
        _ = base_size := mul_one _

/-- C3: for positive balance, entry price and ATR, any side, multiplier and
optional average ATR, the ATR-sized position's notional never exceeds
`balance * max_position_size_pct / 100` of the manager's (sanitized)
limits; in particular the volatility adjustment never lifts the cap. -/
theorem claim_C3_position_size_cap (l : RiskLimits)
    (account_balance entry_price atr_value atr_multiplier : ℚ) (side : OrderSide)
    (avg_atr : Option ℚ)
    (hb : 0 < account_balance) (he : 0 < entry_price) (ha : 0 < atr_value) :
    RiskManager.calculate_position_size_atr (RiskManager.init l) account_balance entry_price
        atr_value side atr_multiplier avg_atr * entry_price ≤
      account_balance * ((RiskManager.init l).limits.max_position_size_pct / 100) := by
  have hpct : 0 < (RiskManager.init l).limits.max_position_size_pct :=
    sanitize_max_position_pos l
  have hcap : 0 < account_balance * ((RiskManager.init l).limits.max_position_size_pct / 100) :=
    mul_pos hb (by positivity)
  unfold RiskManager.calculate_position_size_atr
  rw [if_neg (by push_neg; exact ⟨hb, he, ha⟩)]
  dsimp only
  set cap := account_balance * ((RiskManager.init l).limits.max_position_size_pct / 100)
    with hcapdef
  set sl := (if side = OrderSide.BUY then entry_price - atr_value * atr_multiplier
    else entry_price + atr_value * atr_multiplier) with hsldef
  by_cases hsl : sl ≤ 0
  · rw [if_pos hsl, zero_mul]; exact hcap.le
  · rw [if_neg hsl]
    set base_size := calculate_position_size account_balance
      (RiskManager.init l).limits.per_trade_risk_pct entry_price sl with hbsdef
    by_cases hbase : base_size ≤ 0
    · rw [if_pos hbase, zero_mul]; exact hcap.le
    · rw [if_neg hbase]
      push_neg at hbase
      rw [if_neg (not_le.mpr hcap)]
      have hms_pos : 0 < cap / entry_price := div_pos hcap he
      have hmin_pos : 0 < min base_size (cap / entry_price) := lt_min hbase hms_pos
      have hfin : ∀ x : ℚ, x ≤ cap / entry_price →
          (if x < 0 then (0 : ℚ) else x) * entry_price ≤ cap := by
        intro x hx
        split_ifs with hneg
        · rw [zero_mul]; exact hcap.le
        · calc x * entry_price ≤ cap / entry_price * entry_price :=
                mul_le_mul_of_nonneg_right hx he.le
            _ = cap := div_mul_cancel₀ _ (ne_of_gt he)
      cases avg_atr with
      | none => exact hfin _ (min_le_right _ _)
      | some a =>
        dsimp only
        by_cases hapos : 0 < a
        · simp only [if_pos hapos]
          exact hfin _ (le_trans (adjust_volatility_le_base _ _ _ hmin_pos)
            (min_le_right _ _))
        · simp only [if_neg hapos]
          exact hfin _ (min_le_right _ _)

/-- C3 witness: the spec's worked example (balance 1,000,000, entry 50,000,
ATR 500, multiplier 2, long) respects the 50% notional cap. -/
theorem claim_C3_position_size_cap_witness :
    RiskManager.calculate_position_size_atr (RiskManager.init defaultRiskLimits)
        1000000 50000 500 OrderSide.BUY 2 none * 50000 ≤
      1000000 * ((RiskManager.init defaultRiskLimits).limits.max_position_size_pct / 100) :=
  claim_C3_position_size_cap defaultRiskLimits 1000000 50000 500 2 OrderSide.BUY none
    (by norm_num) (by norm_num) (by norm_num)

/-- C4: closing an open position of size `S` with `0 < filled_amount < S`
reduces its size by exactly `filled_amount` and keeps it open unless the
residual falls below the `1e-6` epsilon (then it is removed), and appends a
Trade over the closed amount only, whose PnL is the side-aware gross PnL on
that amount minus the default exit-leg fee. -/
theorem claim_C4_partial_close (pt : PositionTracker) (sym : String) (pos : Position)
    (exit_price fa now : ℚ)
    (hlook : pt.open_positions sym = some pos)
    (hfa : 0 < fa) (hlt : fa < pos.size) (hexit : 0 < exit_price) :
    ∃ tr : Trade,
      (pt.close_position sym exit_price none none (some fa) now).2 = some tr ∧
      tr.size = fa ∧
      tr.pnl = (if pos.side = OrderSide.BUY then (exit_price - pos.entry_price) * fa
                else (pos.entry_price - exit_price) * fa) - fa * exit_price * (5/10000) ∧
      (pt.close_position sym exit_price none none (some fa) now).1.closed_trades =
        pt.closed_trades ++ [tr] ∧
      (if pos.size - fa < 1/1000000 then
        (pt.close_position sym exit_price none none (some fa) now).1.open_positions sym = none
      else
        (pt.close_position sym exit_price none none (some fa) now).1.open_positions sym =
          some { pos with size := pos.size - fa }) := by
  have hmin : min fa pos.size = fa := min_eq_left hlt.le
  simp only [PositionTracker.close_position, hlook, hmin, hexit.not_le, hfa, hlt,
    calculate_fees, decide_True, Bool.and_self, if_true, if_false, ite_false, ite_true,
    Option.getD]
  by_cases heps : pos.size - fa < 1/1000000
  · simp only [heps, if_pos, ite_true]
    exact ⟨_, rfl, rfl, rfl, rfl, by simp⟩
  · simp only [heps, if_neg, ite_false]
    exact ⟨_, rfl, rfl, rfl, rfl, by simp⟩

/-- C4 witness: the spec's worked example — open long 1.0 BTC at 100, close
0.4 at 110 — leaves 0.6 open and records a trade of size 0.4 with
PnL `(110-100)*0.4` minus the default fee. -/
theorem claim_C4_partial_close_witness :
    ∃ tr : Trade,
      (pt_w.close_position "BTC/KRW" 110 none none (some (2/5)) 0).2 = some tr ∧
      tr.size = 2/5 ∧
      tr.pnl = (if pos_w.side = OrderSide.BUY then ((110 : ℚ) - pos_w.entry_price) * (2/5)
                else (pos_w.entry_price - 110) * (2/5)) - (2/5) * 110 * (5/10000) ∧
      (pt_w.close_position "BTC/KRW" 110 none none (some (2/5)) 0).1.closed_trades =
        pt_w.closed_trades ++ [tr] ∧
      (if pos_w.size - 2/5 < 1/1000000 then
        (pt_w.close_position "BTC/KRW" 110 none none (some (2/5)) 0).1.open_positions
          "BTC/KRW" = none
      else
        (pt_w.close_position "BTC/KRW" 110 none none (some (2/5)) 0).1.open_positions
          "BTC/KRW" = some { pos_w with size := pos_w.size - 2/5 }) :=
  claim_C4_partial_close pt_w "BTC/KRW" pos_w 110 (2/5) 0 (by simp [pt_w])
    (by norm_num) (by norm_num [pos_w]) (by norm_num)

/-- C5: opening a position of size `S` and closing it with
`filled_amount = S`, or with no `filled_amount`, removes the symbol from
the open-position map and appends exactly one Trade of size `S`. -/
theorem claim_C5_full_close_round_trip (pt : PositionTracker) (sym : String)
    (side : OrderSide) (S entry_price exit_price now now' : ℚ)
    (stop_loss take_profit : Option ℚ) (pt1 : PositionTracker) (pos : Position)
    (hS : 0 < S) (hentry : 0 < entry_price) (hexit : 0 < exit_price)
    (hopen : pt.open_position sym side S entry_price stop_loss take_profit now =
      some (pt1, pos)) :
    (∃ tr : Trade,
      (pt1.close_position sym exit_price none none (some S) now').2 = some tr ∧
      tr.size = S ∧
      (pt1.close_position sym exit_price none none (some S) now').1.open_positions sym =
        none ∧
      (pt1.close_position sym exit_price none none (some S) now').1.closed_trades =
        pt1.closed_trades ++ [tr]) ∧
    (∃ tr : Trade,
      (pt1.close_position sym exit_price none none none now').2 = some tr ∧
      tr.size = S ∧
      (pt1.close_position sym exit_price none none none now').1.open_positions sym = none ∧
      (pt1.close_position sym exit_price none none none now').1.closed_trades =
        pt1.closed_trades ++ [tr]) := by
  have hopen' := hopen
  simp only [PositionTracker.open_position, hS.not_le, hentry.not_le, if_false,
    Option.some.injEq, Prod.mk.injEq] at hopen'
  obtain ⟨hpt1, hpos⟩ := hopen'
  have hlook : pt1.open_positions sym = some pos := by
    rw [← hpt1, ← hpos]; simp
  have hsize : pos.size = S := by rw [← hpos]
  constructor
  · have hmin : min S pos.size = pos.size := by rw [hsize]; exact min_self S
    have hnotpart : ¬ (min S pos.size < pos.size) := by rw [hmin]; exact lt_irrefl _
    simp only [PositionTracker.close_position, hlook, hexit.not_le, hS, hmin, hnotpart,
      decide_eq_false, Bool.and_false, if_false, ite_false, ite_true]
    exact ⟨_, rfl, hsize, by simp, rfl⟩
  · simp only [PositionTracker.close_position, hlook, hexit.not_le, if_false, ite_false]
    exact ⟨_, rfl, hsize, by simp, rfl⟩

/-- C5 witness: the round trip on a fresh tracker at size 1. -/
theorem claim_C5_full_close_round_trip_witness :
    ∃ tr : Trade,
      (pt_w.close_position "BTC/KRW" 110 none none (some 1) 0).2 = some tr ∧
      tr.size = 1 ∧
      (pt_w.close_position "BTC/KRW" 110 none none (some 1) 0).1.open_positions "BTC/KRW" =
        none ∧
      (pt_w.close_position "BTC/KRW" 110 none none (some 1) 0).1.closed_trades =
        pt_w.closed_trades ++ [tr] :=
  (claim_C5_full_close_round_trip PositionTracker.init "BTC/KRW" OrderSide.BUY 1 100 110 0 0
    none none pt_w pos_w (by norm_num) (by norm_num) (by norm_num)
    (by simp [PositionTracker.open_position, PositionTracker.init, pt_w, pos_w])).1

/-- Helper: halting always leaves the flag set. -/
theorem halt_trading_halted (rm : RiskManager) (s : String) :
    (rm.halt_trading s).trading_halted = true := by
  unfold RiskManager.halt_trading
  split_ifs with h
  · exact h
  · rfl

/-- Helper: exact breach condition and halt effect of the daily-loss check. -/
theorem check_daily_spec (rm : RiskManager) (account : AccountState) :
    ((rm.check_daily_loss_limit account).2 = true ↔
      0 < account.total_balance ∧ account.daily_pnl < 0 ∧
      |account.daily_pnl / account.total_balance| * 100 ≥ rm.limits.max_daily_loss_pct ∧
      0 < rm.limits.max_daily_loss_pct) ∧
    ((rm.check_daily_loss_limit account).1.trading_halted =
      (rm.trading_halted || (rm.check_daily_loss_limit account).2)) := by
  unfold RiskManager.check_daily_loss_limit
  dsimp only
  split_ifs with h1 h2 h3
  · simp [not_lt.mpr h1]
  · simp [not_lt.mpr h2]
  · obtain ⟨h3a, h3b⟩ := h3
    simp [not_le.mp h1, not_le.mp h2, h3a, h3b, halt_trading_halted]
  · refine ⟨?_, by simp⟩
    simp only [Bool.false_eq_true, false_iff]
    rintro ⟨-, -, hC, hD⟩
    exact h3 ⟨hC, hD⟩

/-- Helper: the daily-loss check leaves the state untouched when it
reports no breach. -/
theorem check_daily_no_breach (rm : RiskManager) (account : AccountState) :
    (rm.check_daily_loss_limit account).2 = false →
    (rm.check_daily_loss_limit account).1 = rm := by
  unfold RiskManager.check_daily_loss_limit
  dsimp only
  split_ifs <;> simp

/-- Helper: exact breach condition and halt effect of the drawdown check. -/
theorem check_dd_spec (rm : RiskManager) (account : AccountState) :
    ((rm.check_max_drawdown account).2 = true ↔
      account.current_drawdown_pct ≥ rm.limits.max_drawdown_pct ∧
      0 < rm.limits.max_drawdown_pct) ∧
    ((rm.check_max_drawdown account).1.trading_halted =
      (rm.trading_halted || (rm.check_max_drawdown account).2)) := by
  unfold RiskManager.check_max_drawdown
  dsimp only
  split_ifs with h
  · simp [h, halt_trading_halted]
  · simp [h]

/-- Helper: the drawdown check leaves the state untouched when it reports
no breach. -/
theorem check_dd_no_breach (rm : RiskManager) (account : AccountState) :
    (rm.check_max_drawdown account).2 = false →
    (rm.check_max_drawdown account).1 = rm := by
  unfold RiskManager.check_max_drawdown
  dsimp only
  split_ifs <;> simp

/-- Helper: exact breach condition and halt effect of the
consecutive-losses check. -/
theorem check_consec_spec (rm : RiskManager) (account : AccountState) :
    ((rm.check_consecutive_losses account).2 = true ↔
      0 < rm.limits.max_consecutive_losses ∧
      account.consecutive_losses ≥ rm.limits.max_consecutive_losses) ∧
    ((rm.check_consecutive_losses account).1.trading_halted =
      (rm.trading_halted || (rm.check_consecutive_losses account).2)) := by
  unfold RiskManager.check_consecutive_losses
  split_ifs with h
  · simp [h, halt_trading_halted]
  · simp [h]

/-- Helper: `check_all_limits` reports a breach exactly on
`breach_condition`, and halts exactly when already halted or breached. -/
theorem check_all_spec (rm : RiskManager) (account : AccountState) :
    ((rm.check_all_limits account).2 = true ↔ breach_condition rm.limits account) ∧
    ((rm.check_all_limits account).1.trading_halted = true ↔
      (rm.trading_halted = true ∨ breach_condition rm.limits account)) := by
  obtain ⟨hd_iff, hd_halt⟩ := check_daily_spec rm account
  unfold RiskManager.check_all_limits breach_condition
  cases hb1 : (rm.check_daily_loss_limit account).2 with
  | true =>
    have hbr : breach_condition rm.limits account := by
      unfold breach_condition
      exact Or.inl (hd_iff.mp hb1)
    simp only [hb1, if_true, ite_true]
    unfold breach_condition at hbr
    constructor
    · simp [hbr]
    · rw [hd_halt, hb1]
      simp [hbr]
  | false =>
    have hrm1 : (rm.check_daily_loss_limit account).1 = rm := check_daily_no_breach rm account hb1
    have hd_not : ¬(0 < account.total_balance ∧ account.daily_pnl < 0 ∧
        |account.daily_pnl / account.total_balance| * 100 ≥ rm.limits.max_daily_loss_pct ∧
        0 < rm.limits.max_daily_loss_pct) := by
      intro hc
      rw [hd_iff.mpr hc] at hb1
      exact Bool.true_eq_false.mp hb1
    simp only [hb1, Bool.false_eq_true, if_false, ite_false, hrm1]
    obtain ⟨hdd_iff, hdd_halt⟩ := check_dd_spec rm account
    cases hb2 : (rm.check_max_drawdown account).2 with
    | true =>
      simp only [hb2, if_true, ite_true]
      constructor
      · simp [hd_not, hdd_iff.mp hb2]
      · rw [hdd_halt, hb2]
        simp [hdd_iff.mp hb2]
    | false =>
      have hrm2 : (rm.check_max_drawdown account).1 = rm := check_dd_no_breach rm account hb2
      have hdd_not : ¬(account.current_drawdown_pct ≥ rm.limits.max_drawdown_pct ∧
          0 < rm.limits.max_drawdown_pct) := by
        intro hc
        rw [hdd_iff.mpr hc] at hb2
        exact Bool.true_eq_false.mp hb2
      simp only [hb2, Bool.false_eq_true, if_false, ite_false, hrm2]
      obtain ⟨hcc_iff, hcc_halt⟩ := check_consec_spec rm account
      constructor
      · rw [hcc_iff]
        simp [hd_not, hdd_not]
      · rw [hcc_halt]
        cases hb3 : (rm.check_consecutive_losses account).2 with
        | true => simp [hd_not, hdd_not, hcc_iff.mp hb3]
        | false =>
          have hcc_not : ¬(0 < rm.limits.max_consecutive_losses ∧
              account.consecutive_losses ≥ rm.limits.max_consecutive_losses) := by
            intro hc
            rw [hcc_iff.mpr hc] at hb3
            exact Bool.true_eq_false.mp hb3
          simp [hd_not, hdd_not, hcc_not]

/-- C2 counterexample: with a sanitizer-accepted configuration whose
`max_daily_loss_pct` is 0 and an account down 10% on the day, the claim's
condition (a) holds (`daily_pnl < 0` and `|daily_pnl|/total_balance*100 ≥
max_daily_loss_pct`), yet `check_all_limits` reports no breach and leaves
trading ACTIVE: the code requires each configured limit to be strictly
positive. -/
theorem claim_C2_halt_machine_counterexample :
    acc0.daily_pnl < 0 ∧
    |acc0.daily_pnl| / acc0.total_balance * 100 ≥ lim0.max_daily_loss_pct ∧
    (RiskManager.init lim0).limits = lim0 ∧
    ((RiskManager.init lim0).check_all_limits acc0).1.trading_halted = false ∧
    ((RiskManager.init lim0).check_all_limits acc0).2 = false := by
  refine ⟨by norm_num [acc0], by norm_num [acc0, lim0, defaultRiskLimits], ?_, ?_, ?_⟩ <;>
    norm_num [RiskManager.check_all_limits, RiskManager.check_daily_loss_limit,
      RiskManager.check_max_drawdown, RiskManager.check_consecutive_losses,
      RiskManager.halt_trading, RiskManager.init, RiskManager.sanitize_limits,
      AccountState.current_drawdown_pct, lim0, acc0, defaultRiskLimits]

/-- C2 (amended): the halt machine starts ACTIVE; `check_all_limits` halts
exactly when one of the three breach conditions holds with its configured
limit strictly positive (and, for the daily-loss condition, a positive
total balance) — the content of `breach_condition`; and once HALTED, no
risk-manager operation other than an explicit `resume_trading` call clears
the flag. -/
theorem claim_C2_halt_machine_amended (l : RiskLimits) (account : AccountState) :
    (RiskManager.init l).trading_halted = false ∧
    (∀ rm : RiskManager,
      ((rm.check_all_limits account).2 = true ↔ breach_condition rm.limits account) ∧
      ((rm.check_all_limits account).1.trading_halted = true ↔
        (rm.trading_halted = true ∨ breach_condition rm.limits account))) ∧
    (∀ (op : RMOp) (rm : RiskManager), op ≠ RMOp.resume → rm.trading_halted = true →
      (op.run rm).trading_halted = true) ∧
    (∀ rm : RiskManager, (RMOp.resume.run rm).trading_halted = false) := by
  refine ⟨rfl, fun rm => check_all_spec rm account, ?_, fun rm => rfl⟩
  intro op rm hop hh
  cases op with
  | check_all a =>
    exact ((check_all_spec rm a).2).mpr (Or.inl hh)
  | check_daily a =>
    show (rm.check_daily_loss_limit a).1.trading_halted = true
    rw [(check_daily_spec rm a).2, hh, Bool.true_or]
  | check_dd a =>
    show (rm.check_max_drawdown a).1.trading_halted = true
    rw [(check_dd_spec rm a).2, hh, Bool.true_or]
  | check_consec a =>
    show (rm.check_consecutive_losses a).1.trading_halted = true
    rw [(check_consec_spec rm a).2, hh, Bool.true_or]
  | halt s => exact halt_trading_halted rm s
  | resume => exact absurd rfl hop

/-- C2 witness: halting again on an already-halted manager keeps it halted. -/
theorem claim_C2_halt_machine_amended_witness :
    ((RMOp.halt "y").run rm_halted).trading_halted = true :=
  (claim_C2_halt_machine_amended defaultRiskLimits acc0).2.2.1 (RMOp.halt "y") rm_halted
    (by simp) rfl

/-- C1 counterexample: closing a long XRP position of tracked size 2 while
the exchange actually holds 5 XRP places the opposite-side order for
amount 2 — the tracked size passed in, not the fresh holdings — and the
fill echoes that amount.  The claim that the close amount is always taken
from current actual holdings is therefore false at this input. -/
theorem claim_C1_close_sizing_counterexample :
    (OrderRouter.close_position defaultOrderRouter ex0 "XRP/KRW" OrderSide.BUY 2
        "stop loss").map FetchResp.filled = some 2 ∧
    OrderRouter._extract_base_balance ex0.balance (OrderRouter.base_currency "XRP/KRW") = 5 ∧
    OrderRouter.market_order_plan defaultOrderRouter ex0.balance 100 "XRP/KRW"
        OrderSide.SELL 2 =
      some { symbol := "XRP/KRW", order_type := OrderType.MARKET, side := OrderSide.SELL
             amount := 2, price := some 100 } ∧
    (2 : ℚ) ≠ 5 := by
  have hbase : OrderRouter.base_currency "XRP/KRW" = "XRP" := by decide
  refine ⟨?_, ?_, ?_, by norm_num⟩
  · norm_num [OrderRouter.close_position, OrderRouter._execute_market_order,
      OrderRouter._extract_price_from_ticker, OrderRouter.positive_candidate,
      OrderRouter.market_order_plan, OrderRouter.market_poll,
      round_to_precision, round_half_even, ex0, bal0, defaultOrderRouter]
  · rw [hbase]
    norm_num [OrderRouter._extract_base_balance, ex0, bal0]
  · norm_num [OrderRouter.market_order_plan, round_to_precision, round_half_even,
      ex0, bal0, defaultOrderRouter]

/-- C1 (amended): `close_position` always delegates to the market flow on
the opposite side; the order amount is taken from the freshly fetched
exchange holdings only when the passed size is non-positive — when
`size > 0`, the placed amount is the passed (tracked) size rounded to the
amount precision, independent of the fetched balance. -/
theorem claim_C1_close_sizing_amended (r : OrderRouter) (ex : Exchange) (symbol : String)
    (side : OrderSide) (size : ℚ) (reason : String) :
    (OrderRouter.close_position r ex symbol side size reason =
      OrderRouter._execute_market_order r ex symbol
        (if side = OrderSide.BUY then OrderSide.SELL else OrderSide.BUY) size) ∧
    (0 < size → ∀ (bal bal' : Balance) (p : ℚ) (side' : OrderSide),
      OrderRouter.market_order_plan r bal p symbol side' size =
        OrderRouter.market_order_plan r bal' p symbol side' size) ∧
    (0 < size → ∀ (bal : Balance) (p : ℚ) (side' : OrderSide) (req : OrderReq),
      OrderRouter.market_order_plan r bal p symbol side' size = some req →
      req.amount = round_to_precision size r.amount_precision ∧
      req.side = side' ∧ req.order_type = OrderType.MARKET) ∧
    (size ≤ 0 → ∀ (bal : Balance) (p : ℚ),
      OrderRouter.market_order_plan r bal p symbol OrderSide.SELL size =
        (if OrderRouter._extract_base_balance bal (OrderRouter.base_currency symbol) ≤ 0 then
          none
        else if round_to_precision
            (OrderRouter._extract_base_balance bal (OrderRouter.base_currency symbol))
            r.amount_precision ≤ 0 then
          none
        else
          some { symbol := symbol, order_type := OrderType.MARKET, side := OrderSide.SELL
                 amount := round_to_precision
                   (OrderRouter._extract_base_balance bal (OrderRouter.base_currency symbol))
                   r.amount_precision
                 price := some p })) ∧
    (size ≤ 0 → ∀ (bal : Balance) (p : ℚ),
      OrderRouter.market_order_plan r bal p symbol OrderSide.BUY size =
        (if OrderRouter._extract_krw_free_balance bal ≤ 0 then none
        else if round_to_precision (OrderRouter._extract_krw_free_balance bal * (95/100)) 0
            ≤ 0 then
          none
        else
          some { symbol := symbol, order_type := OrderType.MARKET, side := OrderSide.BUY
                 amount := round_to_precision
                   (OrderRouter._extract_krw_free_balance bal * (95/100) / p)
                   r.amount_precision
                 price := some p })) := by
  refine ⟨rfl, ?_, ?_, ?_, ?_⟩
  · intro hpos bal bal' p side'
    cases side' <;> simp only [OrderRouter.market_order_plan, if_pos hpos]
  · intro hpos bal p side' req hreq
    cases side' with
    | BUY =>
      simp only [OrderRouter.market_order_plan, if_pos hpos] at hreq
      split_ifs at hreq
      obtain rfl := Option.some_injective _ hreq
      exact ⟨rfl, rfl, rfl⟩
    | SELL =>
      simp only [OrderRouter.market_order_plan, if_pos hpos] at hreq
      split_ifs at hreq
      obtain rfl := Option.some_injective _ hreq
      exact ⟨rfl, rfl, rfl⟩
  · intro hnonpos bal p
    simp only [OrderRouter.market_order_plan, if_neg (not_lt.mpr hnonpos)]
  · intro hnonpos bal p
    simp only [OrderRouter.market_order_plan, if_neg (not_lt.mpr hnonpos)]

/-- C1 witness: with a positive passed size the planned close order is
identical for two different fetched balances. -/
theorem claim_C1_close_sizing_amended_witness :
    OrderRouter.market_order_plan defaultOrderRouter bal0 100 "XRP/KRW" OrderSide.SELL 2 =
      OrderRouter.market_order_plan defaultOrderRouter bal1 100 "XRP/KRW" OrderSide.SELL 2 :=
  (claim_C1_close_sizing_amended defaultOrderRouter ex0 "XRP/KRW" OrderSide.BUY 2
    "stop loss").2.1 (by norm_num) bal0 bal1 100 OrderSide.SELL

/-- Helper: against a deterministic exchange the maker retry loop is
equivalent to a single limit attempt. -/
theorem limit_attempts_succ (r : OrderRouter) (ex : Exchange) (symbol : String)
    (side : OrderSide) (size limit_price timeout : ℚ) (n : ℕ) :
    OrderRouter.limit_attempts r ex symbol side size limit_price timeout (n + 1) =
      OrderRouter._execute_limit_order r ex symbol side size limit_price (some timeout) := by
  induction n with
  | zero =>
    simp only [OrderRouter.limit_attempts]
    cases h : OrderRouter._execute_limit_order r ex symbol side size limit_price
        (some timeout) <;>
      simp [OrderRouter.limit_attempts, h]
  | succ n ih =>
    simp only [OrderRouter.limit_attempts] at ih ⊢
    cases h : OrderRouter._execute_limit_order r ex symbol side size limit_price
        (some timeout) <;>
      simp_all

/-- Helper: when the limit polling loop reports no fill, some status read
of that order showed a non-positive filled amount. -/
theorem limit_poll_none (fetch : ℕ → FetchResp) :
    ∀ (fuel i : ℕ), OrderRouter.limit_poll fetch i fuel = none →
      ∃ m, (fetch m).filled ≤ 0 := by
  intro fuel
  induction fuel with
  | zero =>
    intro i h
    simp only [OrderRouter.limit_poll] at h
    split_ifs at h with h1 h2
    exact ⟨i + 1, not_lt.mp h2⟩
  | succ fuel ih =>
    intro i h
    simp only [OrderRouter.limit_poll] at h
    split_ifs at h with h1
    exact ih (i + 1) h

/-- C6: an absent or non-positive effective size sends `execute_signal`
straight to the full-balance market flow at the marker size 0 (whose
planned BUY amount is 95% of the freshly fetched free KRW at the current
price, and whose planned SELL amount is the fetched base holdings); a
positive size first attempts a limit order at the 0.1%-offset reference
price (for some timeout chosen by the configuration) and uses the market
flow exactly when that limit attempt returns `none` — which happens only
when the order was never placed (bad parameters or no order id) or a final
status read showed zero filled. -/
theorem claim_C6_execution_paths (r : OrderRouter) (ex : Exchange) (signal : Signal)
    (stop_loss take_profit : Option ℚ) :
    (OrderRouter.execute_signal r ex signal none stop_loss take_profit none =
      OrderRouter._execute_market_order r ex signal.symbol signal.side 0) ∧
    (∀ (s : ℚ) (amount : Option ℚ), s ≤ 0 →
      OrderRouter.execute_signal r ex signal (some s) stop_loss take_profit amount =
        OrderRouter._execute_market_order r ex signal.symbol signal.side 0) ∧
    (∀ (bal : Balance) (p : ℚ) (req : OrderReq),
      OrderRouter.market_order_plan r bal p signal.symbol OrderSide.BUY 0 = some req →
      req.amount = round_to_precision
        (OrderRouter._extract_krw_free_balance bal * (95/100) / p) r.amount_precision) ∧
    (∀ (bal : Balance) (p : ℚ) (req : OrderReq),
      OrderRouter.market_order_plan r bal p signal.symbol OrderSide.SELL 0 = some req →
      req.amount = round_to_precision
        (OrderRouter._extract_base_balance bal (OrderRouter.base_currency signal.symbol))
        r.amount_precision) ∧
    (∀ s : ℚ, 0 < s → ∀ p : ℚ,
      OrderRouter._extract_price_from_ticker (ex.ticker signal.symbol) = some p →
      ∃ tmo : ℚ,
        OrderRouter.execute_signal r ex signal (some s) stop_loss take_profit none =
          (match OrderRouter._execute_limit_order r ex signal.symbol signal.side
              (round_to_precision s r.amount_precision)
              (round_to_precision
                (if signal.side = OrderSide.BUY then p * (999/1000) else p * (1001/1000))
                r.price_precision)
              (some tmo) with
            | some res => some res
            | none => OrderRouter._execute_market_order r ex signal.symbol signal.side
                (round_to_precision s r.amount_precision)).map
            (OrderRouter.attach_exec_metrics p signal.side)) ∧
    (∀ (symbol : String) (side : OrderSide) (size limit_price : ℚ) (tmo : Option ℚ),
      OrderRouter._execute_limit_order r ex symbol side size limit_price tmo = none →
      OrderRouter.limit_order_request r symbol side size limit_price = none ∨
      ∃ req, OrderRouter.limit_order_request r symbol side size limit_price = some req ∧
        (ex.create_order req = none ∨
          ∃ oid, ex.create_order req = some oid ∧
            ∃ m, (ex.fetch_order oid m).filled ≤ 0)) := by
  refine ⟨rfl, ?_, ?_, ?_, ?_, ?_⟩
  · intro s amount hs
    simp only [OrderRouter.execute_signal]
    rw [if_pos hs]
  · intro bal p req hreq
    simp only [OrderRouter.market_order_plan, if_neg (lt_irrefl (0 : ℚ))] at hreq
    split_ifs at hreq
    obtain rfl := Option.some_injective _ hreq
    rfl
  · intro bal p req hreq
    simp only [OrderRouter.market_order_plan, if_neg (lt_irrefl (0 : ℚ))] at hreq
    split_ifs at hreq
    obtain rfl := Option.some_injective _ hreq
    rfl
  · intro s hs p hp
    simp only [OrderRouter.execute_signal, hp]
    rw [if_neg (not_le.mpr hs)]
    by_cases huse : r.default_order_type = OrderType.LIMIT
    · refine ⟨r.limit_order_timeout_seconds, ?_⟩
      simp [huse, limit_attempts_succ]
    · by_cases hpm : r.prefer_maker = true
      · refine ⟨min r.limit_order_timeout_seconds r.maker_retry_seconds, ?_⟩
        simp [huse, hpm, limit_attempts_succ]
      · refine ⟨min r.limit_order_timeout_seconds 2, ?_⟩
        simp [huse, hpm]
  · intro symbol side size limit_price tmo h
    unfold OrderRouter._execute_limit_order at h
    cases hreq : OrderRouter.limit_order_request r symbol side size limit_price with
    | none => exact Or.inl rfl
    | some req =>
      rw [hreq] at h
      dsimp only at h
      refine Or.inr ⟨req, rfl, ?_⟩
      cases hco : ex.create_order req with
      | none => exact Or.inl rfl
      | some oid =>
        rw [hco] at h
        dsimp only at h
        exact Or.inr ⟨oid, rfl, limit_poll_none _ _ _ h⟩

/-- C6 witness: a signal carrying size 0 is routed to the market flow at
the marker size 0. -/
theorem claim_C6_execution_paths_witness :
    OrderRouter.execute_signal defaultOrderRouter ex0 sig0 (some 0) none none none =
      OrderRouter._execute_market_order defaultOrderRouter ex0 sig0.symbol sig0.side 0 :=
  (claim_C6_execution_paths defaultOrderRouter ex0 sig0 none none).2.1 0 none (le_refl 0)

end TradingCore
